import Mathlib

/-
Verification of the confirmation-gating protocol and the command registry
of the core-coder CLI.

The development shallowly embeds two components:

* `ConfirmationCallbackHandler` from `src/cli.py` (lines 139-308): the
  per-turn confirmation gate.  Its mutable fields become `GateState`;
  `on_tool_start` is modelled twice: once as a whole-call function
  (`on_tool_start`, sequential semantics, used for the functional claims)
  and once as a small-step interleaving system (`stepThread` /
  `runSchedule`, one atomic step per Python statement, used for the
  concurrency claim about prompt uniqueness).

* `CommandRegistry` from `src/langchain-agent-base/src/commands.py`
  (lines 87-247).  Python dicts become association lists (insertion
  ordered, unique keys); a raised Python exception becomes `Except.error`
  carrying a `catchable` flag (whether `except Exception` catches it);
  a handler is a function from its keyword arguments to
  `Except PyExn (Option String)` (`Option.none` models a `None` return).

Machine strings are Lean `String`s; the Python string primitives used by
the source (`lower`, `strip`, `split`, `lstrip`, `startswith`, `in`,
`', '.join`) are re-defined below so each definition can be diffed
against the Python it embeds.  The JSON `command`-field extraction in
`on_tool_start` (cli.py lines 183-193) happens upstream of everything the
claims test; the gate model therefore takes the already-resolved payload
(`actualInput`) as its argument, exactly as the claims quantify over "the
resolved command".
-/

/-! ## Python string primitives -/

/-- Whitespace characters recognised by Python's `str.split()` / `str.strip()`. -/
def isWSpace (c : Char) : Bool :=
  c = ' ' || c = '\t' || c = '\n' || c = '\r' || c = '\x0b' || c = '\x0c'

/-- Accumulator-style worker for `splitWS`. -/
def splitWSAux : List Char → List Char → List (List Char)
  | [], acc => if acc.isEmpty then [] else [acc.reverse]
  | c :: rest, acc =>
    if isWSpace c then
      if acc.isEmpty then splitWSAux rest [] else acc.reverse :: splitWSAux rest []
    else
      splitWSAux rest (c :: acc)

/-- Python `s.split()`: split on runs of whitespace, discarding empty pieces. -/
def splitWS (cs : List Char) : List (List Char) :=
  splitWSAux cs []

/-- Python `s.strip()`: drop leading and trailing whitespace. -/
def pyStrip (s : String) : String :=
  String.mk (((s.data.dropWhile isWSpace).reverse.dropWhile isWSpace).reverse)

/-- Python `s.lower()` (ASCII case folding, which is all the source relies on). -/
def pyLower (s : String) : String :=
  String.mk (s.data.map Char.toLower)

/-- Contiguous-subsequence test on character lists (Python's `needle in haystack`). -/
def seqIn (needle : List Char) : List Char → Bool
  | [] => needle.isEmpty
  | c :: rest => needle.isPrefixOf (c :: rest) || seqIn needle rest

/-- Python `needle in haystack` on strings. -/
def pyIn (needle haystack : String) : Bool :=
  seqIn needle.data haystack.data

/-- Python `s.startswith(pre)`. -/
def pyStartsWith (s pre : String) : Bool :=
  pre.data.isPrefixOf s.data

/-- Python `s.lstrip('/')`. -/
def pyLstripSlash (s : String) : String :=
  String.mk (s.data.dropWhile (fun c => c = '/'))

/-- Python `', '.join(items)`. -/
def joinComma : List String → String
  | [] => ""
  | [a] => a
  | a :: rest => a ++ ", " ++ joinComma rest

/-! ## Tool classification (cli.py lines 153-176) -/

/-- The `shell_keywords` list of `_is_shell_tool` (cli.py lines 155-159),
in source order. -/
def shell_keywords : List String :=
  ["shell", "terminal", "command", "powershell", "bash", "cmd", "run_",
   "execute", "system", "python_info", "get_system", "get_python",
   "install", "pip", "npm", "git"]

/-- `_is_shell_tool` (cli.py lines 153-161): a tool is shell-like when its
lowercased name contains any keyword as a substring
(`any(keyword in tool_name_lower for keyword in shell_keywords)`). -/
def is_shell_tool (toolName : String) : Bool :=
  let toolNameLower := pyLower toolName
  shell_keywords.any (fun keyword => pyIn keyword toolNameLower)

/-- The fixed keyword set named by the specification ("shell/terminal/command/
powershell/bash/cmd/run_/execute/system/install/pip/npm/git").  Spec-side
definition, used only to compare the spec's classifier with the source's. -/
def spec_shell_keywords : List String :=
  ["shell", "terminal", "command", "powershell", "bash", "cmd", "run_",
   "execute", "system", "install", "pip", "npm", "git"]

/-- Classifier following the specification's words: shell-like iff the name
matches (contains) one of the 13 listed keywords.  Spec-side definition. -/
def is_shell_tool_spec (toolName : String) : Bool :=
  spec_shell_keywords.any (fun keyword => pyIn keyword (pyLower toolName))

/-- `_is_safe_command` (cli.py lines 163-176): whitelist match by
case-insensitive equality of the first whitespace-delimited token, or by the
full command string starting with an entry. -/
def is_safe_command (safeCommands : List String) (command : String) : Bool :=
  if command = "" then
    false
  else
    let baseCmd :=
      match splitWS (pyStrip command).data with
      | [] => ""
      | w :: _ => String.mk w
    safeCommands.any (fun safeCmd =>
      pyLower baseCmd = pyLower safeCmd ||
        pyStartsWith (pyLower command) (pyLower safeCmd))

/-! ## Confirmation gate state (cli.py lines 139-151) -/

/-- One entry of `self._pending_tools` (cli.py lines 209-213): the dict
`{'name': ..., 'input': ..., 'type': ...}`. -/
structure PendingTool where
  name : String
  input : String
  type : String
deriving Repr, DecidableEq

/-- The mutable fields of `ConfirmationCallbackHandler` (cli.py lines 142-151)
together with the configuration it reads (`confirm_terminal`, `confirm_tools`
from the constructor, `whitelist_enabled` and `safe_commands` from
`AGENT_CONFIG`).  `userApproved : Option Bool` mirrors `self._user_approved`
(`None` / `True` / `False`). -/
structure GateState where
  confirmTerminal : Bool
  confirmTools : Bool
  whitelistEnabled : Bool
  safeCommands : List String
  pendingTools : List PendingTool
  userApproved : Option Bool
  confirmationShown : Bool
  showingPrompt : Bool
deriving Repr, DecidableEq

/-- Normalise one human answer (cli.py line 254: `input(...).strip().lower()`
compared against `yes` / `y` / `no` / `n`). -/
def parseAnswer (s : String) : Option Bool :=
  let response := pyLower (pyStrip s)
  if response = "yes" || response = "y" then some true
  else if response = "no" || response = "n" then some false
  else none

/-- The confirmation `while True` loop (cli.py lines 253-266): keep reading
answers until one is a valid yes/no; `none` when the stream never yields a
valid answer (the loop would block forever re-prompting). -/
def firstDecision : List String → Option Bool
  | [] => none
  | a :: rest =>
    match parseAnswer a with
    | some d => some d
    | none => firstDecision rest

/-- How one `on_tool_start` call ends: return normally (the tool proceeds),
raise `KeyboardInterrupt` (cancelled), or never return (the sequential
semantics of a waiter polling a decision that is never set, or of the
prompt loop on an exhausted answer stream). -/
inductive ToolStartResult
  | proceed
  | cancelled
  | blocked
deriving Repr, DecidableEq

/-- Result of a whole `on_tool_start` call: the updated handler state, how the
call ended, and the list of confirmation prompts it rendered (each prompt is
the snapshot of `_pending_tools` displayed, cli.py lines 240-249). -/
structure ToolStartOutcome where
  state : GateState
  result : ToolStartResult
  promptsShown : List (List PendingTool)
deriving Repr, DecidableEq

/-- `on_tool_start` (cli.py lines 178-301) as a whole-call function, for the
sequential (single uninterrupted callback) semantics.  `actualInput` is the
already-resolved payload (after the JSON `command` extraction of lines
183-193).  Branches, in source order: the whitelist skip (lines 195-197), the
`needs_confirmation` test (lines 199-205), the pending append (lines
207-213), the opener path (lines 215-293: lock, mark shown, render the
accumulated batch once, read answers until a valid yes/no, publish the
decision, return or raise), and the waiter path (lines 294-301: poll
`_user_approved`, then proceed or raise). -/
def on_tool_start (s : GateState) (toolName : String) (actualInput : String)
    (answers : List String) : ToolStartOutcome :=
  let isShell := is_shell_tool toolName
  if isShell && s.whitelistEnabled && is_safe_command s.safeCommands actualInput then
    ⟨s, .proceed, []⟩
  else
    let needsConfirmation :=
      (isShell && s.confirmTerminal) || (!isShell && s.confirmTools)
    if needsConfirmation then
      let toolType := if isShell then "Terminal" else "Tool"
      let s1 := { s with pendingTools := s.pendingTools ++ [PendingTool.mk toolName actualInput toolType] }
      if !s1.showingPrompt && !s1.confirmationShown then
        let s2 := { s1 with showingPrompt := true, confirmationShown := true }
        match firstDecision answers with
        | some true => ⟨{ s2 with userApproved := some true }, .proceed, [s2.pendingTools]⟩
        | some false => ⟨{ s2 with userApproved := some false }, .cancelled, [s2.pendingTools]⟩
        | none => ⟨s2, .blocked, [s2.pendingTools]⟩
      else
        match s1.userApproved with
        | none => ⟨s1, .blocked, []⟩
        | some false => ⟨s1, .cancelled, []⟩
        | some true => ⟨s1, .proceed, []⟩
    else
      ⟨s, .proceed, []⟩

/-- `on_chain_end` (cli.py lines 303-308): unconditional reset of the four
batch-state fields. -/
def on_chain_end (s : GateState) : GateState :=
  { s with pendingTools := [], confirmationShown := false,
           userApproved := none, showingPrompt := false }

/-! ## Interleaving semantics for concurrent `on_tool_start` callbacks

CPython delivers the parallel tool-start callbacks of one turn on separate
threads and may switch threads between any two statements; in particular
between the opener check (`if not self._showing_prompt and not
self._confirmation_shown:`, cli.py line 216) and the lock assignment
(`self._showing_prompt = True`, line 217).  Each `ThreadPC` value is the
next atomic statement a gated callback will execute. -/

inductive ThreadPC
  /-- Lines 195-213: whitelist skip, `needs_confirmation`, pending append. -/
  | entry
  /-- Line 216: evaluate the opener condition. -/
  | checkOpener
  /-- Line 217: `self._showing_prompt = True`. -/
  | lockPrompt
  /-- Lines 219-223: grace-period sleep, then `self._confirmation_shown = True`. -/
  | markShown
  /-- Lines 240-249: render the prompt with the current `_pending_tools`. -/
  | renderPrompt
  /-- Lines 253-266: read the human answer, publish the decision, return/raise. -/
  | readAnswer
  /-- Lines 296-301: poll `_user_approved`, then return or raise. -/
  | pollDecision
  /-- The call returned (`proceed`) or raised (`cancelled`). -/
  | finished (r : ToolStartResult)
deriving Repr, DecidableEq

/-- One concurrent `on_tool_start` invocation: its program counter and the
request it carries. -/
structure ThreadState where
  pc : ThreadPC
  toolName : String
  toolInput : String
deriving Repr, DecidableEq

/-- Shared state of the interleaved system: the handler's fields, the
per-thread states, the log of prompts rendered so far, and the stream of
human decisions consumed by `readAnswer` steps. -/
structure SysState where
  gate : GateState
  threads : List ThreadState
  prompts : List (List PendingTool)
  humanAnswers : List Bool
deriving Repr, DecidableEq

/-- Execute the next atomic statement of thread `i` (no-op when `i` is out of
range, the thread is finished, or it is blocked on unavailable input /
an unset decision). -/
def stepThread (s : SysState) (i : Nat) : SysState :=
  match s.threads.get? i with
  | none => s
  | some t =>
    match t.pc with
    | .entry =>
      let isShell := is_shell_tool t.toolName
      if isShell && s.gate.whitelistEnabled && is_safe_command s.gate.safeCommands t.toolInput then
        { s with threads := s.threads.set i { t with pc := .finished .proceed } }
      else
        let needsConfirmation :=
          (isShell && s.gate.confirmTerminal) || (!isShell && s.gate.confirmTools)
        if needsConfirmation then
          let toolType := if isShell then "Terminal" else "Tool"
          { s with
              gate := { s.gate with
                pendingTools := s.gate.pendingTools ++ [PendingTool.mk t.toolName t.toolInput toolType] },
              threads := s.threads.set i { t with pc := .checkOpener } }
        else
          { s with threads := s.threads.set i { t with pc := .finished .proceed } }
    | .checkOpener =>
      if !s.gate.showingPrompt && !s.gate.confirmationShown then
        { s with threads := s.threads.set i { t with pc := .lockPrompt } }
      else
        { s with threads := s.threads.set i { t with pc := .pollDecision } }
    | .lockPrompt =>
      { s with gate := { s.gate with showingPrompt := true },
               threads := s.threads.set i { t with pc := .markShown } }
    | .markShown =>
      { s with gate := { s.gate with confirmationShown := true },
               threads := s.threads.set i { t with pc := .renderPrompt } }
    | .renderPrompt =>
      { s with prompts := s.prompts ++ [s.gate.pendingTools],
               threads := s.threads.set i { t with pc := .readAnswer } }
    | .readAnswer =>
      match s.humanAnswers with
      | [] => s
      | d :: rest =>
        if d then
          { s with gate := { s.gate with userApproved := some true },
                   humanAnswers := rest,
                   threads := s.threads.set i { t with pc := .finished .proceed } }
        else
          { s with gate := { s.gate with userApproved := some false },
                   humanAnswers := rest,
                   threads := s.threads.set i { t with pc := .finished .cancelled } }
    | .pollDecision =>
      match s.gate.userApproved with
      | none => s
      | some true => { s with threads := s.threads.set i { t with pc := .finished .proceed } }
      | some false => { s with threads := s.threads.set i { t with pc := .finished .cancelled } }
    | .finished _ => s

/-- Run the interleaved system under an explicit schedule (the list of thread
indices, in the order the scheduler lets them take one atomic step each). -/
def runSchedule (init : SysState) (schedule : List Nat) : SysState :=
  schedule.foldl stepThread init

/-! ## Command registry (commands.py lines 43-247) -/

/-- A raised Python exception.  `catchable` records whether it is a subclass
of `Exception` (and is therefore caught by the `except Exception` clause of
`execute_command`, commands.py line 210); `KeyboardInterrupt` and other
`BaseException`-only classes are not. -/
structure PyExn where
  msg : String
  catchable : Bool
deriving Repr, DecidableEq

/-- The per-parameter metadata built by the `@command` decorator
(commands.py lines 72-79): `required` is "no default in the signature";
`default` is the declared default, with Python `None` (and the collapsed
no-default case) as `Option.none`. -/
structure ParamInfo where
  required : Bool
  default : Option String
deriving Repr, DecidableEq

/-- `CommandInfo` (commands.py lines 43-50).  `parameters` is the ordered
name-to-info mapping (a Python dict, so names are unique and declaration
order is preserved); `function` is the handler, taking its keyword arguments
and either raising or returning a value (`Option.none` models `return None`). -/
structure CommandInfo where
  name : String
  function : List (String × String) → Except PyExn (Option String)
  description : String
  parameters : List (String × ParamInfo)
  usage : String

/-- `CommandRegistry` (commands.py lines 87-93): the insertion-ordered
`self.commands` dict as an association list with unique keys. -/
structure CommandRegistry where
  commands : List (String × CommandInfo)

/-- Keys of the registry dict, in insertion order
(`self.commands.keys()`). -/
def registeredNames (reg : CommandRegistry) : List String :=
  reg.commands.map (fun p => p.1)

/-- Dict lookup `self.commands[command_name]` / the
`command_name not in self.commands` test. -/
def lookupCommand (reg : CommandRegistry) (name : String) : Option CommandInfo :=
  (reg.commands.find? (fun p => p.1 == name)).map (fun p => p.2)

/-- Lookup of one provided keyword argument (`param_name in provided_kwargs`
followed by `provided_kwargs[param_name]`). -/
def lookupKw (provided : List (String × String)) (paramName : String) : Option String :=
  (provided.find? (fun p => p.1 == paramName)).map (fun p => p.2)

/-- The `ValueError` raised by `_prepare_arguments` (commands.py line 234)
for a missing required parameter; `ValueError` is an `Exception` subclass. -/
def requiredErr (paramName : String) : PyExn :=
  ⟨"Required parameter '" ++ paramName ++ "' not provided", true⟩

/-- `_prepare_arguments` (commands.py lines 213-239): walk the declared
parameters in declaration order; take the provided value when present,
raise `ValueError` at the first missing required parameter, substitute a
non-`None` default, and silently skip parameters that are optional with a
`None` default.  Keyword arguments whose names are not declared parameters
are never consulted. -/
def prepare_arguments :
    List (String × ParamInfo) → List (String × String) →
    Except PyExn (List (String × String))
  | [], _ => .ok []
  | (paramName, info) :: rest, provided =>
    match lookupKw provided paramName with
    | some v =>
      match prepare_arguments rest provided with
      | .ok tl => .ok ((paramName, v) :: tl)
      | .error e => .error e
    | none =>
      if info.required then
        .error (requiredErr paramName)
      else
        match info.default with
        | some d =>
          match prepare_arguments rest provided with
          | .ok tl => .ok ((paramName, d) :: tl)
          | .error e => .error e
        | none => prepare_arguments rest provided

/-- The positional-to-keyword binding loop of `execute_command`
(commands.py lines 195-200): `kwargs[param_names[i]] = arg` for each
positional argument with `i < len(param_names)` — i.e. the zip of the
declared parameter names with the positional arguments, surplus arguments
falling off the end. -/
def bindPositional (params : List (String × ParamInfo)) (commandArgs : List String) :
    List (String × String) :=
  (params.map (fun p => p.1)).zip commandArgs

/-- The `try` block of `execute_command` (commands.py lines 193-211) for a
resolved command: build kwargs from positional arguments when no keyword
arguments were provided, prepare/validate, call the handler, stringify; any
`Exception` raised inside is caught and formatted (line 211), anything not
an `Exception` subclass propagates. -/
def dispatchArgs (ci : CommandInfo) (commandName : String)
    (commandArgs : List String) (kwargs : List (String × String)) :
    Except PyExn String :=
  let kwargs1 :=
    if kwargs.isEmpty && !commandArgs.isEmpty then bindPositional ci.parameters commandArgs
    else kwargs
  match prepare_arguments ci.parameters kwargs1 with
  | .error e =>
    if e.catchable then .ok ("Error executing command '" ++ commandName ++ "': " ++ e.msg)
    else .error e
  | .ok prepared =>
    match ci.function prepared with
    | .error e =>
      if e.catchable then .ok ("Error executing command '" ++ commandName ++ "': " ++ e.msg)
      else .error e
    | .ok (some r) => .ok r
    | .ok none => .ok "Command executed successfully."

/-- `execute_command` (commands.py lines 166-211): strip the leading `/`
marker, split on whitespace into name and positional arguments, handle the
empty and unknown-command cases with returned strings, then dispatch. -/
def execute_command (reg : CommandRegistry) (commandStr : String)
    (kwargs : List (String × String)) : Except PyExn String :=
  match (splitWS (pyLstripSlash commandStr).data).map String.mk with
  | [] => .ok "No command provided"
  | commandName :: commandArgs =>
    match lookupCommand reg commandName with
    | none =>
      .ok ("Command '" ++ commandName ++ "' not found. Available commands: " ++
        joinComma (registeredNames reg))
    | some commandInfo => dispatchArgs commandInfo commandName commandArgs kwargs

/-- Number of required parameters of a command (the claim's `N`). -/
def requiredCount (params : List (String × ParamInfo)) : Nat :=
  (params.filter (fun p => p.2.required)).length

/-! ## Scenario fixtures -/

/-- Scenario C of the specification: `safe_commands=["pwd"]`,
`whitelist_enabled=true`, `confirm_terminal=true`, fresh batch state. -/
def gateScenarioC : GateState :=
  ⟨true, false, true, ["pwd"], [], none, false, false⟩

/-- Scenario A of the specification: `confirm_terminal=true`,
`confirm_tools=false`, whitelist disabled, fresh batch state. -/
def gateScenarioA : GateState :=
  ⟨true, false, false, [], [], none, false, false⟩

/-- Initial interleaved state for two concurrent shell tool-start callbacks in
one turn with `confirm_terminal=true` and the whitelist disabled: both threads
are about to enter `on_tool_start`, and the human would approve. -/
def raceInit : SysState :=
  ⟨⟨true, false, false, [], [], none, false, false⟩,
   [⟨.entry, "run_terminal_cmd", "echo one"⟩, ⟨.entry, "run_terminal_cmd", "echo two"⟩],
   [], [true]⟩

/-- A schedule in which both threads evaluate the opener condition (cli.py
line 216) before either executes `self._showing_prompt = True` (line 217):
thread 0 appends, thread 1 appends, thread 0 passes the check, thread 1
passes the check, then each in turn locks, marks shown and renders. -/
def raceSchedule : List Nat :=
  [0, 1, 0, 1, 0, 0, 0, 1, 1, 1]

/-! ## Claims about the confirmation gate -/

/-- Claim C1 (code bug evidence): under the statement-level interleaving the
source actually permits, a batch of two tool-start events that each require
confirmation can render TWO confirmation prompts, because the opener
selection is a non-atomic check-then-set on `_showing_prompt`.  The final
state has two prompts in the render log while both requests are pending in
the single batch — contradicting the claim's "exactly one human prompt". -/
theorem claim_C1_two_prompts_race :
    (runSchedule raceInit raceSchedule).prompts.length = 2 ∧
    (runSchedule raceInit raceSchedule).gate.pendingTools.length = 2 := by
  decide

/-- Claim C6 counterexample: the tool name `get_python` is classified
Shell-like by `_is_shell_tool`, yet it matches none of the 13 keywords the
claim lists (the spec-side classifier says Generic). -/
theorem claim_C6_counterexample :
    is_shell_tool "get_python" = true ∧ is_shell_tool_spec "get_python" = false := by
  decide

/-- Claim C6 as amended: the gate classifies a tool Shell-like if and only if
its (lowercased) name contains one of the 13 keywords the claim lists OR one
of the three additional keywords present in the source (`python_info`,
`get_system`, `get_python`); matching is case-insensitive substring
containment. -/
theorem claim_C6_keyword_set_amended :
    ∀ (toolName : String),
      is_shell_tool toolName = true ↔
        (is_shell_tool_spec toolName = true ∨
          pyIn "python_info" (pyLower toolName) = true ∨
          pyIn "get_system" (pyLower toolName) = true ∨
          pyIn "get_python" (pyLower toolName) = true) := by
  intro toolName
  simp only [is_shell_tool, is_shell_tool_spec, shell_keywords, spec_shell_keywords,
    List.any_cons, List.any_nil, Bool.or_eq_true, Bool.or_false]
  tauto

/-- Claim C3: for a shell-like tool-start event with the whitelist enabled and
a matching resolved command, `on_tool_start` returns immediately — state
unchanged (no pending request recorded) and no prompt rendered — whatever the
confirmation toggles say; and in Scenario C the inputs `pwd` and `pwd -P`
skip confirmation while `rm pwd.txt` still renders a one-entry prompt. -/
theorem claim_C3_whitelist_skip :
    (∀ (s : GateState) (toolName actualInput : String) (answers : List String),
      is_shell_tool toolName = true →
      s.whitelistEnabled = true →
      is_safe_command s.safeCommands actualInput = true →
      on_tool_start s toolName actualInput answers = ⟨s, .proceed, []⟩) ∧
    (∀ answers, on_tool_start gateScenarioC "terminal" "pwd" answers =
      ⟨gateScenarioC, .proceed, []⟩) ∧
    (∀ answers, on_tool_start gateScenarioC "terminal" "pwd -P" answers =
      ⟨gateScenarioC, .proceed, []⟩) ∧
    (on_tool_start gateScenarioC "terminal" "rm pwd.txt" ["yes"]).promptsShown =
      [[⟨"terminal", "rm pwd.txt", "Terminal"⟩]] := by
  have main : ∀ (s : GateState) (toolName actualInput : String) (answers : List String),
      is_shell_tool toolName = true →
      s.whitelistEnabled = true →
      is_safe_command s.safeCommands actualInput = true →
      on_tool_start s toolName actualInput answers = ⟨s, .proceed, []⟩ := by
    intro s toolName actualInput answers h1 h2 h3
    simp [on_tool_start, h1, h2, h3]
  refine ⟨main, ?_, ?_, ?_⟩
  · intro answers
    exact main gateScenarioC "terminal" "pwd" answers (by decide) rfl (by decide)
  · intro answers
    exact main gateScenarioC "terminal" "pwd -P" answers (by decide) rfl (by decide)
  · decide

/-- Claim C3 witness: Scenario C instantiated — the call with input `pwd`
proceeds with no prompt and no state change. -/
theorem claim_C3_witness :
    on_tool_start gateScenarioC "terminal" "pwd" [] = ⟨gateScenarioC, .proceed, []⟩ :=
  claim_C3_whitelist_skip.1 gateScenarioC "terminal" "pwd" [] (by decide) rfl (by decide)

/-- Claim C4: for events that are not whitelist-skipped, confirmation is
required exactly when (Shell-like and `confirm_terminal`) or (Generic and
`confirm_tools`): when this is false `on_tool_start` returns immediately with
no pending request and no prompt; when it is true the pending request is
appended.  In Scenario A a Generic call executes with no prompt while a
Shell-like `rm -rf /tmp/x` renders a one-entry prompt (and answering `no`
cancels). -/
theorem claim_C4_needs_confirmation :
    (∀ (s : GateState) (toolName actualInput : String) (answers : List String),
      ((is_shell_tool toolName && s.confirmTerminal) ||
        (!(is_shell_tool toolName) && s.confirmTools)) = false →
      on_tool_start s toolName actualInput answers = ⟨s, .proceed, []⟩) ∧
    (∀ (s : GateState) (toolName actualInput : String) (answers : List String),
      (is_shell_tool toolName && s.whitelistEnabled &&
        is_safe_command s.safeCommands actualInput) = false →
      ((is_shell_tool toolName && s.confirmTerminal) ||
        (!(is_shell_tool toolName) && s.confirmTools)) = true →
      (on_tool_start s toolName actualInput answers).state.pendingTools =
        s.pendingTools ++
          [⟨toolName, actualInput, if is_shell_tool toolName then "Terminal" else "Tool"⟩]) ∧
    (on_tool_start gateScenarioA "weather" "Paris" ["yes"] =
      ⟨gateScenarioA, .proceed, []⟩) ∧
    ((on_tool_start gateScenarioA "terminal" "rm -rf /tmp/x" ["no"]).promptsShown =
        [[⟨"terminal", "rm -rf /tmp/x", "Terminal"⟩]] ∧
      (on_tool_start gateScenarioA "terminal" "rm -rf /tmp/x" ["no"]).result = .cancelled) := by
  refine ⟨?_, ?_, by decide, by decide⟩
  · intro s toolName actualInput answers hconf
    by_cases hsk : (is_shell_tool toolName && s.whitelistEnabled &&
        is_safe_command s.safeCommands actualInput) = true
    · simp [on_tool_start, hsk]
    · simp only [Bool.not_eq_true] at hsk
      simp [on_tool_start, hsk, hconf]
  · intro s toolName actualInput answers hsk hconf
    simp only [on_tool_start, hsk, hconf, Bool.false_eq_true, if_false, if_true]
    split
    · split <;> rfl
    · split <;> rfl

/-- Claim C4 witness: with `confirm_terminal=true`, `confirm_tools=false`, a
Generic tool (`weather`) is not gated, and a gated Shell-like call appends
exactly its pending entry. -/
theorem claim_C4_witness :
    on_tool_start gateScenarioA "weather" "Tokyo" [] = ⟨gateScenarioA, .proceed, []⟩ ∧
    (on_tool_start gateScenarioA "terminal" "rm -rf /tmp/x" ["no"]).state.pendingTools =
      gateScenarioA.pendingTools ++
        [⟨"terminal", "rm -rf /tmp/x",
          if is_shell_tool "terminal" then "Terminal" else "Tool"⟩] :=
  ⟨claim_C4_needs_confirmation.1 gateScenarioA "weather" "Tokyo" [] (by decide),
   claim_C4_needs_confirmation.2.1 gateScenarioA "terminal" "rm -rf /tmp/x" ["no"]
     (by decide) (by decide)⟩

/-- Claim C5: after a chain-end event all four batch-state fields are reset
unconditionally — pending list empty, decision Unset (`none`), both prompt
flags false — the configuration is untouched, and a subsequent gated
tool-start event opens a fresh batch: it renders a prompt containing exactly
its own entry, whatever the previous turn's state was. -/
theorem claim_C5_chain_end_reset :
    ∀ (s : GateState),
      (on_chain_end s).pendingTools = [] ∧
      (on_chain_end s).userApproved = none ∧
      (on_chain_end s).confirmationShown = false ∧
      (on_chain_end s).showingPrompt = false ∧
      (on_chain_end s).confirmTerminal = s.confirmTerminal ∧
      (on_chain_end s).confirmTools = s.confirmTools ∧
      (on_chain_end s).whitelistEnabled = s.whitelistEnabled ∧
      (on_chain_end s).safeCommands = s.safeCommands ∧
      (∀ (toolName actualInput : String) (answers : List String),
        (is_shell_tool toolName && s.whitelistEnabled &&
          is_safe_command s.safeCommands actualInput) = false →
        ((is_shell_tool toolName && s.confirmTerminal) ||
          (!(is_shell_tool toolName) && s.confirmTools)) = true →
        (on_tool_start (on_chain_end s) toolName actualInput answers).promptsShown =
          [[⟨toolName, actualInput,
            if is_shell_tool toolName then "Terminal" else "Tool"⟩]]) := by
  intro s
  refine ⟨rfl, rfl, rfl, rfl, rfl, rfl, rfl, rfl, ?_⟩
  intro toolName actualInput answers hsk hconf
  simp only [on_tool_start, on_chain_end, hsk, hconf, Bool.false_eq_true, if_false, if_true,
    Bool.not_false, Bool.and_self]
  cases hfd : firstDecision answers with
  | none => simp
  | some d => cases d <;> simp

/-- Claim C5 witness: resetting a dirty state (non-empty pending, Denied
decision, both flags set) and then starting a gated shell call renders a
fresh one-entry prompt. -/
theorem claim_C5_witness :
    (on_chain_end ⟨true, false, false, [], [⟨"terminal", "old", "Terminal"⟩],
        some false, true, true⟩).pendingTools = [] ∧
    (on_tool_start (on_chain_end ⟨true, false, false, [],
        [⟨"terminal", "old", "Terminal"⟩], some false, true, true⟩)
        "terminal" "rm -rf /tmp/x" ["yes"]).promptsShown =
      [[⟨"terminal", "rm -rf /tmp/x",
        if is_shell_tool "terminal" then "Terminal" else "Tool"⟩]] :=
  ⟨(claim_C5_chain_end_reset ⟨true, false, false, [], [⟨"terminal", "old", "Terminal"⟩],
      some false, true, true⟩).1,
   (claim_C5_chain_end_reset ⟨true, false, false, [], [⟨"terminal", "old", "Terminal"⟩],
      some false, true, true⟩).2.2.2.2.2.2.2.2
     "terminal" "rm -rf /tmp/x" ["yes"] (by decide) (by decide)⟩

/-- Claim C2: for a gated call (not whitelist-skipped, confirmation needed),
a Denied decision aborts the whole batch: the opener raises the cancellation
after the human answers no, a later arrival that observes an already-made
Denied decision (waiter path, no prompt of its own) also raises it, and an
Approved decision lets a waiter return normally. -/
theorem claim_C2_denied_aborts_batch :
    ∀ (s : GateState) (toolName actualInput : String) (answers : List String),
      (is_shell_tool toolName && s.whitelistEnabled &&
        is_safe_command s.safeCommands actualInput) = false →
      ((is_shell_tool toolName && s.confirmTerminal) ||
        (!(is_shell_tool toolName) && s.confirmTools)) = true →
      ((s.showingPrompt = false → s.confirmationShown = false →
          firstDecision answers = some false →
          (on_tool_start s toolName actualInput answers).result = .cancelled) ∧
        ((s.showingPrompt || s.confirmationShown) = true →
          s.userApproved = some false →
          (on_tool_start s toolName actualInput answers).result = .cancelled ∧
            (on_tool_start s toolName actualInput answers).promptsShown = []) ∧
        ((s.showingPrompt || s.confirmationShown) = true →
          s.userApproved = some true →
          (on_tool_start s toolName actualInput answers).result = .proceed ∧
            (on_tool_start s toolName actualInput answers).promptsShown = [])) := by
  intro s toolName actualInput answers hsk hconf
  refine ⟨?_, ?_, ?_⟩
  · intro hsp hcs hno
    simp [on_tool_start, hsk, hconf, hsp, hcs, hno]
  · intro hw hden
    rcases Bool.or_eq_true_iff.mp hw with h | h <;>
      simp [on_tool_start, hsk, hconf, h, hden]
  · intro hw happ
    rcases Bool.or_eq_true_iff.mp hw with h | h <;>
      simp [on_tool_start, hsk, hconf, h, happ]

/-- Claim C2 witness: in a fresh batch the opener answering `no` cancels; a
waiter that finds the decision already Denied cancels without prompting; a
waiter that finds it Approved proceeds without prompting. -/
theorem claim_C2_witness :
    (on_tool_start gateScenarioA "terminal" "rm -rf /tmp/x" ["no"]).result = .cancelled ∧
    ((on_tool_start ⟨true, false, false, [], [⟨"terminal", "rm -rf /tmp/x", "Terminal"⟩],
        some false, true, true⟩ "bash" "ls" []).result = .cancelled ∧
      (on_tool_start ⟨true, false, false, [], [⟨"terminal", "rm -rf /tmp/x", "Terminal"⟩],
        some false, true, true⟩ "bash" "ls" []).promptsShown = []) ∧
    ((on_tool_start ⟨true, false, false, [], [⟨"terminal", "rm -rf /tmp/x", "Terminal"⟩],
        some true, true, true⟩ "bash" "ls" []).result = .proceed ∧
      (on_tool_start ⟨true, false, false, [], [⟨"terminal", "rm -rf /tmp/x", "Terminal"⟩],
        some true, true, true⟩ "bash" "ls" []).promptsShown = []) :=
  ⟨(claim_C2_denied_aborts_batch gateScenarioA "terminal" "rm -rf /tmp/x" ["no"]
      (by decide) (by decide)).1 rfl rfl (by decide),
   (claim_C2_denied_aborts_batch ⟨true, false, false, [],
      [⟨"terminal", "rm -rf /tmp/x", "Terminal"⟩], some false, true, true⟩
      "bash" "ls" [] (by decide) (by decide)).2.1 rfl rfl,
   (claim_C2_denied_aborts_batch ⟨true, false, false, [],
      [⟨"terminal", "rm -rf /tmp/x", "Terminal"⟩], some true, true, true⟩
      "bash" "ls" [] (by decide) (by decide)).2.2 rfl rfl⟩

/-- Claim C10: when the human answers no, the opener publishes the Denied
decision into the shared state (`_user_approved = False`) strictly before the
cancellation is raised, so the post-raise state carries `some false` (not
Unset) and any later gated arrival in the same batch observes Denied — it
cancels immediately without re-prompting and without waiting forever. -/
theorem claim_C10_decision_published_before_raise :
    ∀ (s : GateState) (toolName actualInput : String) (answers : List String),
      (is_shell_tool toolName && s.whitelistEnabled &&
        is_safe_command s.safeCommands actualInput) = false →
      ((is_shell_tool toolName && s.confirmTerminal) ||
        (!(is_shell_tool toolName) && s.confirmTools)) = true →
      s.showingPrompt = false →
      s.confirmationShown = false →
      firstDecision answers = some false →
      (on_tool_start s toolName actualInput answers).state.userApproved = some false ∧
      (on_tool_start s toolName actualInput answers).result = .cancelled ∧
      (∀ (toolName2 actualInput2 : String) (answers2 : List String),
        (is_shell_tool toolName2 &&
          (on_tool_start s toolName actualInput answers).state.whitelistEnabled &&
          is_safe_command (on_tool_start s toolName actualInput answers).state.safeCommands
            actualInput2) = false →
        ((is_shell_tool toolName2 &&
            (on_tool_start s toolName actualInput answers).state.confirmTerminal) ||
          (!(is_shell_tool toolName2) &&
            (on_tool_start s toolName actualInput answers).state.confirmTools)) = true →
        (on_tool_start (on_tool_start s toolName actualInput answers).state
            toolName2 actualInput2 answers2).result = .cancelled ∧
        (on_tool_start (on_tool_start s toolName actualInput answers).state
            toolName2 actualInput2 answers2).promptsShown = []) := by
  intro s toolName actualInput answers hsk hconf hsp hcs hno
  have hstate : (on_tool_start s toolName actualInput answers).state =
      { s with
        pendingTools := s.pendingTools ++
          [⟨toolName, actualInput, if is_shell_tool toolName then "Terminal" else "Tool"⟩],
        showingPrompt := true, confirmationShown := true, userApproved := some false } := by
    simp [on_tool_start, hsk, hconf, hsp, hcs, hno]
  refine ⟨by rw [hstate], ?_, ?_⟩
  · simp [on_tool_start, hsk, hconf, hsp, hcs, hno]
  · intro toolName2 actualInput2 answers2 hsk2 hconf2
    rw [hstate] at hsk2 hconf2 ⊢
    dsimp only at hsk2 hconf2
    constructor <;> simp [on_tool_start, hsk2, hconf2]

/-- Claim C10 witness: after the opener of a fresh batch is denied, the
decision is published as `some false`, and a second gated shell call on the
resulting state cancels with no prompt. -/
theorem claim_C10_witness :
    (on_tool_start gateScenarioA "terminal" "rm -rf /tmp/x" ["no"]).state.userApproved =
      some false ∧
    (on_tool_start (on_tool_start gateScenarioA "terminal" "rm -rf /tmp/x" ["no"]).state
        "bash" "ls" []).result = .cancelled := by
  obtain ⟨h1, _, h3⟩ := claim_C10_decision_published_before_raise gateScenarioA
    "terminal" "rm -rf /tmp/x" ["no"] (by decide) (by decide) rfl rfl (by decide)
  exact ⟨h1, (h3 "bash" "ls" [] (by decide) (by decide)).1⟩

/-! ## Substring lemmas for the not-found message -/

/-- A prefix of a character list is also found by `seqIn`. -/
theorem seqIn_of_isPrefixOf {l₁ l₂ : List Char} (h : l₁.isPrefixOf l₂ = true) :
    seqIn l₁ l₂ = true := by
  cases l₂ with
  | nil =>
    cases l₁ with
    | nil => rfl
    | cons c r => simp [List.isPrefixOf] at h
  | cons c r => simp [seqIn, h]

/-- `seqIn` is preserved by extending the haystack on the left. -/
theorem seqIn_append_right {n : List Char} (l₁ : List Char) {l₂ : List Char}
    (h : seqIn n l₂ = true) : seqIn n (l₁ ++ l₂) = true := by
  induction l₁ with
  | nil => simpa using h
  | cons c r ih =>
    simp only [List.cons_append, seqIn, Bool.or_eq_true]
    exact Or.inr ih

/-- A string is found by `seqIn` at the head of any extension. -/
theorem seqIn_append_left (l t : List Char) : seqIn l (l ++ t) = true :=
  seqIn_of_isPrefixOf (List.isPrefixOf_iff_prefix.mpr (List.prefix_append l t))

/-- Every name in a list occurs as a substring of its comma-join
(`', '.join(names)`). -/
theorem seqIn_joinComma {n : String} : ∀ {names : List String}, n ∈ names →
    seqIn n.data (joinComma names).data = true := by
  intro names
  induction names with
  | nil => intro h; cases h
  | cons a rest ih =>
    intro h
    cases rest with
    | nil =>
      rcases List.mem_singleton.mp h with rfl
      have : n.data.isPrefixOf n.data = true :=
        List.isPrefixOf_iff_prefix.mpr List.prefix_rfl
      exact seqIn_of_isPrefixOf this
    | cons b rest2 =>
      rcases List.mem_cons.mp h with rfl | hmem
      · show seqIn n.data (n ++ ", " ++ joinComma (b :: rest2)).data = true
        rw [String.data_append, String.data_append, List.append_assoc]
        exact seqIn_append_left n.data _
      · show seqIn n.data (a ++ ", " ++ joinComma (b :: rest2)).data = true
        rw [String.data_append]
        exact seqIn_append_right _ (ih hmem)

/-- Claim C8: dispatching an input whose command name is not registered
returns (never raises) the not-found string, which contains every currently
registered command name; an empty input returns the fixed no-command
message.  `Except.ok` is "returned a string to the caller"; a raised Python
exception would be `Except.error`. -/
theorem claim_C8_unknown_command :
    (∀ (reg : CommandRegistry) (commandStr : String) (kwargs : List (String × String)),
      (splitWS (pyLstripSlash commandStr).data).map String.mk = [] →
      execute_command reg commandStr kwargs = .ok "No command provided") ∧
    (∀ (reg : CommandRegistry) (commandStr : String) (kwargs : List (String × String))
        (commandName : String) (commandArgs : List String),
      (splitWS (pyLstripSlash commandStr).data).map String.mk = commandName :: commandArgs →
      lookupCommand reg commandName = none →
      execute_command reg commandStr kwargs =
        .ok ("Command '" ++ commandName ++ "' not found. Available commands: " ++
          joinComma (registeredNames reg)) ∧
        ∀ n ∈ registeredNames reg,
          pyIn n ("Command '" ++ commandName ++ "' not found. Available commands: " ++
            joinComma (registeredNames reg)) = true) := by
  constructor
  · intro reg commandStr kwargs hsplit
    simp [execute_command, hsplit]
  · intro reg commandStr kwargs commandName commandArgs hsplit hlook
    constructor
    · simp [execute_command, hsplit, hlook]
    · intro n hn
      show seqIn n.data _ = true
      rw [String.data_append]
      exact seqIn_append_right _ (seqIn_joinComma hn)

/-- A sample registered command with one required parameter (`who`). -/
def demoCI : CommandInfo :=
  ⟨"greet", fun _ => .ok (some "hi"), "greets someone",
   [("who", ⟨true, none⟩)], "//greet <who>"⟩

/-- A sample registry holding only `greet`. -/
def demoReg : CommandRegistry := ⟨[("greet", demoCI)]⟩

/-- Claim C8 witness: the empty input returns the fixed message, and an
unknown command returns the not-found string containing every registered
name. -/
theorem claim_C8_witness :
    execute_command demoReg "" [] = .ok "No command provided" ∧
    execute_command demoReg "nope" [] =
      .ok ("Command '" ++ "nope" ++ "' not found. Available commands: " ++
        joinComma (registeredNames demoReg)) ∧
    ∀ n ∈ registeredNames demoReg,
      pyIn n ("Command '" ++ "nope" ++ "' not found. Available commands: " ++
        joinComma (registeredNames demoReg)) = true :=
  ⟨claim_C8_unknown_command.1 demoReg "" [] rfl,
   (claim_C8_unknown_command.2 demoReg "nope" [] "nope" [] rfl rfl).1,
   (claim_C8_unknown_command.2 demoReg "nope" [] "nope" [] rfl rfl).2⟩

/-! ## Argument-binding lemmas -/

/-- Looking up the key just prepended finds its value. -/
theorem lookupKw_cons_self (n a : String) (l : List (String × String)) :
    lookupKw ((n, a) :: l) n = some a := by
  unfold lookupKw
  rw [List.find?_cons_of_pos _ (by simp)]
  rfl

/-- Prepending a pair with a different key does not change a lookup. -/
theorem lookupKw_cons_ne {m n : String} (a : String) (l : List (String × String))
    (h : m ≠ n) : lookupKw ((n, a) :: l) m = lookupKw l m := by
  unfold lookupKw
  rw [List.find?_cons_of_neg _ (by simp [beq_iff_eq]; exact Ne.symm h)]

/-- `_prepare_arguments` only consults the provided kwargs at the declared
parameter names: two kwargs mappings that agree there prepare identically. -/
theorem prepare_arguments_congr :
    ∀ (params : List (String × ParamInfo)) (p₁ p₂ : List (String × String)),
      (∀ m, m ∈ params.map (fun p => p.1) → lookupKw p₁ m = lookupKw p₂ m) →
      prepare_arguments params p₁ = prepare_arguments params p₂ := by
  intro params
  induction params with
  | nil => intro p₁ p₂ h; rfl
  | cons hd rest ih =>
    intro p₁ p₂ h
    obtain ⟨paramName, info⟩ := hd
    have hhd : lookupKw p₁ paramName = lookupKw p₂ paramName := h paramName (by simp)
    have hrest : prepare_arguments rest p₁ = prepare_arguments rest p₂ :=
      ih p₁ p₂ (fun m hm => h m (by simp [hm]))
    simp only [prepare_arguments, hhd, hrest]

/-- Core of claim C7: when fewer positional arguments than required
parameters are bound (and parameter names are distinct, as they are for a
Python signature), `_prepare_arguments` raises the missing-required
`ValueError` for some required parameter. -/
theorem prepare_missing_required :
    ∀ (params : List (String × ParamInfo)) (args : List String),
      (params.map (fun p => p.1)).Nodup →
      args.length < requiredCount params →
      ∃ p, p ∈ params ∧ p.2.required = true ∧
        prepare_arguments params (bindPositional params args) =
          .error (requiredErr p.1) := by
  intro params
  induction params with
  | nil => intro args hnd hlt; simp [requiredCount] at hlt
  | cons hd rest ih =>
    intro args hnd hlt
    obtain ⟨paramName, info⟩ := hd
    cases args with
    | nil =>
      have hbind : bindPositional ((paramName, info) :: rest) [] = [] := by
        simp [bindPositional]
      cases hreq : info.required with
      | true =>
        refine ⟨(paramName, info), by simp, hreq, ?_⟩
        rw [hbind]
        simp [prepare_arguments, lookupKw, hreq]
      | false =>
        have hrc : requiredCount ((paramName, info) :: rest) = requiredCount rest := by
          simp [requiredCount, hreq]
        have hbr : bindPositional rest [] = [] := by simp [bindPositional]
        obtain ⟨p, hp, hpr, heq⟩ := ih []
          (List.nodup_cons.mp
            (show (paramName :: rest.map (fun p => p.1)).Nodup from hnd)).2
          (by rw [hrc] at hlt; simpa using hlt)
        rw [hbr] at heq
        refine ⟨p, List.mem_cons_of_mem _ hp, hpr, ?_⟩
        rw [hbind]
        cases hdef : info.default with
        | none => simp [prepare_arguments, lookupKw, hreq, hdef, heq]
        | some d => simp [prepare_arguments, lookupKw, hreq, hdef, heq]
    | cons a args2 =>
      have hbind : bindPositional ((paramName, info) :: rest) (a :: args2) =
          (paramName, a) :: bindPositional rest args2 := by
        simp [bindPositional]
      have hnd' := List.nodup_cons.mp
        (show (paramName :: rest.map (fun p => p.1)).Nodup from hnd)
      have hlt' : args2.length < requiredCount rest := by
        cases hreq : info.required with
        | true =>
          have : requiredCount ((paramName, info) :: rest) = requiredCount rest + 1 := by
            simp [requiredCount, hreq]
          simp only [List.length_cons] at hlt
          omega
        | false =>
          have : requiredCount ((paramName, info) :: rest) = requiredCount rest := by
            simp [requiredCount, hreq]
          simp only [List.length_cons] at hlt
          omega
      obtain ⟨p, hp, hpr, heq⟩ := ih args2 hnd'.2 hlt'
      have hrw : prepare_arguments rest ((paramName, a) :: bindPositional rest args2) =
          prepare_arguments rest (bindPositional rest args2) := by
        apply prepare_arguments_congr
        intro m hm
        exact lookupKw_cons_ne _ _ (fun hc => hnd'.1 (hc ▸ hm))
      refine ⟨p, List.mem_cons_of_mem _ hp, hpr, ?_⟩
      rw [hbind]
      simp [prepare_arguments, lookupKw_cons_self, hrw, heq]

/-- Claim C7: executing a registered command that has required parameters
with fewer positional arguments than required parameters (and no extra
keyword arguments) returns the error string naming a missing required
parameter, and the handler is never invoked — the dispatch result is the
same error string for every possible handler function. -/
theorem claim_C7_missing_required :
    ∀ (reg : CommandRegistry) (commandStr commandName : String)
      (commandArgs : List String) (ci : CommandInfo),
      (splitWS (pyLstripSlash commandStr).data).map String.mk =
        commandName :: commandArgs →
      lookupCommand reg commandName = some ci →
      (ci.parameters.map (fun p => p.1)).Nodup →
      commandArgs.length < requiredCount ci.parameters →
      ∃ p, p ∈ ci.parameters ∧ p.2.required = true ∧
        execute_command reg commandStr [] =
          .ok ("Error executing command '" ++ commandName ++ "': " ++
            (requiredErr p.1).msg) ∧
        (∀ g, dispatchArgs { ci with function := g } commandName commandArgs [] =
          .ok ("Error executing command '" ++ commandName ++ "': " ++
            (requiredErr p.1).msg)) := by
  intro reg commandStr commandName commandArgs ci hsplit hlook hnd hlt
  obtain ⟨p, hp, hpr, heq⟩ := prepare_missing_required ci.parameters commandArgs hnd hlt
  have hdisp : ∀ g, dispatchArgs { ci with function := g } commandName commandArgs [] =
      .ok ("Error executing command '" ++ commandName ++ "': " ++ (requiredErr p.1).msg) := by
    intro g
    cases commandArgs with
    | nil =>
      have hb : bindPositional ci.parameters [] = [] := by simp [bindPositional]
      rw [hb] at heq
      simp [dispatchArgs, heq, requiredErr]
    | cons a as =>
      simp [dispatchArgs, heq, requiredErr]
  refine ⟨p, hp, hpr, ?_, hdisp⟩
  have hexec : execute_command reg commandStr [] =
      dispatchArgs ci commandName commandArgs [] := by
    simp [execute_command, hsplit, hlook]
  rw [hexec]
  exact hdisp ci.function

/-- Claim C7 witness: `greet` declares the required parameter `who`;
dispatching `greet` with no arguments returns the missing-parameter error
without calling the handler. -/
theorem claim_C7_witness :
    execute_command demoReg "greet" [] =
      .ok ("Error executing command '" ++ "greet" ++ "': " ++
        (requiredErr "who").msg) := by
  obtain ⟨p, hp, hpr, hexec, hind⟩ := claim_C7_missing_required demoReg "greet" "greet"
    [] demoCI rfl rfl (by decide) (by decide)
  rcases List.mem_singleton.mp hp with rfl
  exact hexec

/-- Zipping ignores the part of the second list beyond the first list's
length. -/
theorem zip_take_length {α β : Type} (l₁ : List α) (l₂ : List β) :
    l₁.zip l₂ = l₁.zip (l₂.take l₁.length) := by
  induction l₁ generalizing l₂ with
  | nil => simp
  | cons a r ih =>
    cases l₂ with
    | nil => simp
    | cons b s => simp [ih s]

/-- The positional-binding loop binds at most `len(param_names)` arguments:
surplus positional arguments are silently dropped. -/
theorem bindPositional_take (params : List (String × ParamInfo)) (args : List String) :
    bindPositional params args = bindPositional params (args.take params.length) := by
  unfold bindPositional
  have h := zip_take_length (params.map (fun p => p.1)) args
  simpa [List.length_map] using h

/-- Claim C9: surplus input is silently discarded.  (1) Positional arguments
beyond the declared parameter count do not change the dispatch result (no
error, same handler call); (2) a provided keyword argument whose name is not
a declared parameter never influences preparation (so it is never passed to
the handler and raises no error); (3) the prepared kwargs the handler
receives mention only declared parameter names, in declaration order (a
sublist of the declared name list). -/
theorem claim_C9_surplus_discarded :
    (∀ (ci : CommandInfo) (commandName : String) (commandArgs : List String),
      dispatchArgs ci commandName commandArgs [] =
        dispatchArgs ci commandName (commandArgs.take ci.parameters.length) []) ∧
    (∀ (params : List (String × ParamInfo)) (provided : List (String × String))
        (x v : String),
      x ∉ params.map (fun p => p.1) →
      prepare_arguments params ((x, v) :: provided) =
        prepare_arguments params provided) ∧
    (∀ (params : List (String × ParamInfo)) (provided prepared : List (String × String)),
      prepare_arguments params provided = .ok prepared →
      List.Sublist (prepared.map (fun p => p.1)) (params.map (fun p => p.1))) := by
  refine ⟨?_, ?_, ?_⟩
  · intro ci commandName commandArgs
    cases commandArgs with
    | nil => simp
    | cons a as =>
      cases hlen : ci.parameters.length with
      | zero =>
        have hps : ci.parameters = [] := List.length_eq_zero.mp hlen
        simp [dispatchArgs, hps, bindPositional]
      | succ k =>
        have hbind := bindPositional_take ci.parameters (a :: as)
        rw [hlen] at hbind
        simp only [List.take_succ_cons] at hbind
        simp [dispatchArgs, hlen, List.take_succ_cons, hbind]
  · intro params provided x v hx
    apply prepare_arguments_congr
    intro m hm
    exact lookupKw_cons_ne _ _ (fun hc => hx (hc ▸ hm))
  · intro params
    induction params with
    | nil =>
      intro provided prepared h
      simp only [prepare_arguments] at h
      cases h
      simp
    | cons hd rest ih =>
      intro provided prepared h
      obtain ⟨paramName, info⟩ := hd
      simp only [prepare_arguments] at h
      cases hlk : lookupKw provided paramName with
      | some v =>
        rw [hlk] at h
        cases hr : prepare_arguments rest provided with
        | ok tl =>
          rw [hr] at h
          cases h
          exact List.Sublist.cons₂ _ (ih provided tl hr)
        | error e => rw [hr] at h; cases h
      | none =>
        rw [hlk] at h
        cases hreq : info.required with
        | true => rw [hreq] at h; simp at h
        | false =>
          rw [hreq] at h
          simp only [Bool.false_eq_true, if_false] at h
          cases hdef : info.default with
          | some d =>
            rw [hdef] at h
            cases hr : prepare_arguments rest provided with
            | ok tl =>
              rw [hr] at h
              cases h
              exact List.Sublist.cons₂ _ (ih provided tl hr)
            | error e => rw [hr] at h; cases h
          | none =>
            rw [hdef] at h
            exact List.Sublist.cons _ (ih provided prepared h)

/-- Claim C9 witness: two surplus positional arguments to `greet` are
dropped; an undeclared keyword argument (`bogus`) changes nothing; the
prepared kwargs name only the declared parameter `who`. -/
theorem claim_C9_witness :
    dispatchArgs demoCI "greet" ["Alice", "Bob", "Carol"] [] =
      dispatchArgs demoCI "greet" ["Alice"] [] ∧
    prepare_arguments demoCI.parameters [("bogus", "1"), ("who", "Alice")] =
      prepare_arguments demoCI.parameters [("who", "Alice")] ∧
    List.Sublist ([("who", "Alice")].map (fun p => p.1))
      (demoCI.parameters.map (fun p => p.1)) :=
  ⟨claim_C9_surplus_discarded.1 demoCI "greet" ["Alice", "Bob", "Carol"],
   claim_C9_surplus_discarded.2.1 demoCI.parameters [("who", "Alice")] "bogus" "1"
     (by decide),
   claim_C9_surplus_discarded.2.2 demoCI.parameters [("who", "Alice")]
     [("who", "Alice")] rfl⟩
